import Mathlib

/-!
Shallow embedding of `src/ALI_IOS/Func_Miniconda.py`.

The module drives a WSL subsystem through `subprocess`: it checks for and
installs Miniconda, checks for and creates a named conda environment, rewrites
Windows paths to WSL mount paths, and launches a worker script.  The subsystem
is modelled as an oracle mapping each issued command to a `CommandResult`
(exit code plus captured streams); every embedded function is a pure function
of that oracle, returning the chronological list of observable `Event`s it
performs and, where Python exceptions can escape, the escaping exception.

Strings are modelled through their `List Char` data; the Python ASCII whitespace
and ASCII case mapping are used (the inputs handled by the module are ASCII).
-/

namespace FuncMiniconda

/-- Result of one subprocess invocation: exit code and the captured streams
(`stdout`/`stderr` are empty when the Python call does not capture them). -/
structure CommandResult where
  exitCode : Int
  stdout : String
  stderr : String
deriving Repr, DecidableEq

/-- The WSL subsystem, as an oracle giving the outcome of each command.
`runArgv` answers argv-list invocations (`subprocess.run([...])`,
`subprocess.check_call([...])`); `runShell` answers shell-string invocations
(`subprocess.run(cmd, shell=True)`, `subprocess.Popen(cmd, shell=True)`). -/
structure Subsystem where
  runArgv : List String → CommandResult
  runShell : String → CommandResult

/-- ASCII whitespace as stripped by Python `str.strip()`:
space, tab, newline, carriage return, vertical tab, form feed. -/
def pyIsSpace (c : Char) : Bool :=
  c.toNat == 32 || c.toNat == 9 || c.toNat == 10 || c.toNat == 13 ||
    c.toNat == 11 || c.toNat == 12

/-- Python `str.strip()` on the character list: drop whitespace from both ends. -/
def stripChars (l : List Char) : List Char :=
  ((l.dropWhile pyIsSpace).reverse.dropWhile pyIsSpace).reverse

/-- One character of Python `str.replace('\\', '/')`. -/
def repl (c : Char) : Char := if c = '\\' then '/' else c

/-- Python `str.lower()` on ASCII: map `A`-`Z` (codes 65-90) to codes 97-122. -/
def pyLower (c : Char) : Char :=
  if 65 ≤ c.toNat ∧ c.toNat ≤ 90 then Char.ofNat (c.toNat + 32) else c

/-- Python `path.split(':', 1)` together with its `':' in path` guard:
`none` when the list has no colon, otherwise the part before the first colon
and the part after it. -/
def splitOnceColon : List Char → Option (List Char × List Char)
  | [] => none
  | c :: rest =>
    if c = ':' then some ([], rest)
    else (splitOnceColon rest).map (fun p => (c :: p.1, p.2))

/-- Python `str.split("\n")`: split at every newline, keeping empty pieces. -/
def splitLines : List Char → List (List Char)
  | [] => [[]]
  | c :: rest =>
    match splitLines rest with
    | [] => [[c]]
    | h :: t => if c = '\n' then [] :: h :: t else (c :: h) :: t

/-- A Windows path separator (`ntpath` treats both `\` and `/` as separators). -/
def isSep (c : Char) : Bool := c == '\\' || c == '/'

/-- Length of the drive part split off by `ntpath.splitdrive` (the host runs
Windows, so `os.path` is `ntpath`): a UNC `\\server\share` head, or a
two-character `X:` head, or nothing. -/
def driveLen (l : List Char) : Nat :=
  match l with
  | a :: b :: rest =>
    if isSep a && isSep b && (match rest with | c :: _ => ! isSep c | [] => true) then
      match rest.findIdx? isSep with
      | none => 0
      | some i =>
        match (rest.drop (i + 1)).findIdx? isSep with
        | some 0 => 0
        | some j => i + 3 + j
        | none => l.length
    else if b = ':' then 2 else 0
  | _ => 0

/-- `ntpath.basename` on the character list: drop the drive part, then keep
the maximal suffix containing no separator. -/
def basenameL (l : List Char) : List Char :=
  ((l.drop (driveLen l)).reverse.takeWhile (fun c => ¬ isSep c)).reverse

/-- `ntpath.splitdrive` on strings. -/
def splitdrive (s : String) : String × String :=
  (String.mk (s.data.take (driveLen s.data)), String.mk (s.data.drop (driveLen s.data)))

/-- Append a path component to a drive-free path part, inserting `\` unless the
left part is empty or already ends with a separator (the loop body of
`ntpath.join`). -/
def ntAppend (rp pp : String) : String :=
  match rp.data.reverse with
  | [] => pp
  | c :: _ => if isSep c then rp ++ pp else rp ++ "\\" ++ pp

/-- `ntpath.join` for two components (`os.path.join` on the Windows host). -/
def ntJoin (a b : String) : String :=
  let rd := (splitdrive a).1
  let rp := (splitdrive a).2
  let pd := (splitdrive b).1
  let pp := (splitdrive b).2
  let step : String × String :=
    if (match pp.data with | c :: _ => isSep c | [] => false) then
      ((if pd ≠ "" ∨ rd = "" then pd else rd), pp)
    else if pd ≠ "" ∧ pd ≠ rd then
      if pd.toLower ≠ rd.toLower then (pd, pp) else (pd, ntAppend rp pp)
    else (rd, ntAppend rp pp)
  let rd2 := step.1
  let rp2 := step.2
  if (match rp2.data with | c :: _ => ! isSep c | [] => false) && (rd2 != "") &&
      (match rd2.data.reverse with | c :: _ => c != ':' | [] => true) then
    rd2 ++ "\\" ++ rp2
  else rd2 ++ rp2

/-- `os.path.join` with three components, folded left as Python does. -/
def ntJoin3 (a b c : String) : String := ntJoin (ntJoin a b) c

/-- The normalisation prefix of `windows_to_linux_path`: Python
`windows_path.strip()` followed by `.replace('\\', '/')`. -/
def normChars (l : List Char) : List Char := (stripChars l).map repl

/-- The mount prefix `"/mnt/"` prepended by `windows_to_linux_path`. -/
def mntChars : List Char := ['/', 'm', 'n', 't', '/']

/-- Core of `windows_to_linux_path` on character lists: strip, replace `\` by
`/`, and if a colon is present split at the first colon, lower-case the whole
prefix and prepend `/mnt/`. -/
def w2lCore (l : List Char) : List Char :=
  match splitOnceColon (normChars l) with
  | some p => mntChars ++ p.1.map pyLower ++ p.2
  | none => normChars l

/-- `windows_to_linux_path` from the source (lines 152-164). -/
def windows_to_linux_path (s : String) : String := String.mk (w2lCore s.data)

/-- The notion, from the spec, of a drive letter (the `X` of a drive marker `X:`): an
ASCII letter. -/
def isDriveLetter (c : Char) : Bool :=
  (65 ≤ c.toNat && c.toNat ≤ 90) || (97 ≤ c.toNat && c.toNat ≤ 122)

/-- The notion, from the spec, of "contains a drive marker (`X:`)": some ASCII letter
immediately followed by a colon occurs in the list. -/
def containsDriveMarker : List Char → Bool
  | a :: b :: rest => (isDriveLetter a && b == ':') || containsDriveMarker (b :: rest)
  | _ => false

/-- Python exceptions that the module can raise.  `configurationError` and
`connectionError` are the error classes named by the specification; they are
included so that statements about them can be expressed (the source never
raises either). -/
inductive PyError where
  | calledProcessError
  | nameError (missing : String)
  | notImplementedError
  | configurationError
  | connectionError
deriving Repr, DecidableEq

/-- Tags for the `print` diagnostics of the source (multi-line stdout/stderr
dumps are collapsed into their tag). -/
inductive Msg where
  | installing
  | installedOk
  | minicondaOk
  | minicondaErr
  | envExists
  | envMissing
  | showCreateCmd
  | createOk
  | createErr
  | dump (s : String)
  | showCmd (c : String)
  | installCmdOk (c : String)
  | installCmdFailed (c : String)
  | finalOk
  | finalErr
  | linkOk
  | linkErr
deriving Repr, DecidableEq

/-- Observable actions of the module, in chronological order. -/
inductive Event where
  | run (argv : List String) (r : CommandResult)
  | runShell (cmd : String) (r : CommandResult)
  | checkCall (argv : List String) (r : CommandResult)
  | print (m : Msg)
  | popen (cmd : String)
  | sleep (secs : Nat)
  | connect (host : String) (port : Nat)
  | closeConn
  | terminate
  | configurationError
deriving Repr, DecidableEq

/-- Argv of the probe made by `checkMinicondaWsl` (line 10). -/
def checkMinicondaCmd : List String := ["wsl", "test", "-d", "~/miniconda3"]

/-- Installer URL (lines 18-25 and 48). -/
def minicondaUrl : String :=
  "https://repo.anaconda.com/miniconda/Miniconda3-latest-Linux-x86_64.sh"

/-- The download argv of `install_miniconda_on_wsl` (line 48): a plain wget
with no retry or continue flags. -/
def wslWget : List String := ["wsl", "--", "wget", minicondaUrl]

/-- Line 51. -/
def wslChmod : List String := ["wsl", "--", "chmod", "+x", "Miniconda3-latest-Linux-x86_64.sh"]

/-- Line 54. -/
def wslBash : List String := ["wsl", "--", "bash", "Miniconda3-latest-Linux-x86_64.sh", "-b"]

/-- Line 57. -/
def wslRm : List String := ["wsl", "--", "rm", "Miniconda3-latest-Linux-x86_64.sh"]

/-- Line 60. -/
def wslBashrc : List String :=
  ["wsl", "--", "bash", "-c",
   "echo \x27export PATH=\"$HOME/miniconda3/bin:$PATH\"\x27 >> ~/.bashrc"]

/-- Line 63. -/
def wslSource : List String := ["wsl", "--", "bash", "-c", "source ~/.bashrc"]

/-- The six consecutive `subprocess.check_call` argvs of
`install_miniconda_on_wsl` (lines 48-63). -/
def minicondaInstallCmds : List (List String) :=
  [wslWget, wslChmod, wslBash, wslRm, wslBashrc, wslSource]

/-- Shell command of line 65-66 (`pip install rpyc` in the base interpreter). -/
def pipRpycCmd : String := "wsl -- bash -c \"~/miniconda3/bin/pip install rpyc\""

/-- A run of consecutive `subprocess.check_call` statements: each invocation
whose command exits non-zero raises `CalledProcessError`, which skips the
remaining statements. -/
def runCheckSeq (sub : Subsystem) : List (List String) → List Event × Option PyError
  | [] => ([], none)
  | argv :: rest =>
    let r := sub.runArgv argv
    if r.exitCode = 0 then
      let next := runCheckSeq sub rest
      (Event.checkCall argv r :: next.1, next.2)
    else ([Event.checkCall argv r], some PyError.calledProcessError)

/-- `install_miniconda_on_wsl` (lines 45-71): six `check_call` steps, then a
captured `subprocess.run` for `pip install rpyc`; a `CalledProcessError` from
any step is caught by the `except` clause and logged, so the function itself
never raises. -/
def install_miniconda_on_wsl (sub : Subsystem) : List Event :=
  let steps := runCheckSeq sub minicondaInstallCmds
  match steps.2 with
  | some _ => steps.1 ++ [Event.print Msg.minicondaErr]
  | none =>
    let r := sub.runShell pipRpycCmd
    steps.1 ++ [Event.runShell pipRpycCmd r, Event.print Msg.minicondaOk]

/-- The download argv of the (nowhere-called) `install_conda` (line 29): wget
with `--continue` and `--tries=3`. -/
def install_conda_wget (p : String) : List String :=
  ["wsl", "wget", "--continue", "--tries=3", minicondaUrl, "-O", ntJoin p "miniconda.sh"]

/-- `install_conda` (lines 14-42), parameterised by `platform.system()`.
All its subprocess invocations are `subprocess.run` without `check`, so the
`try` body cannot raise and the function returns `true` on the Windows branch
regardless of every exit code; on other systems it raises
`NotImplementedError` before running anything. -/
def install_conda (sub : Subsystem) (system : String) (p : String) :
    List Event × Except PyError Bool :=
  if system = "Windows" then
    let pathSh := ntJoin p "miniconda.sh"
    let pathConda := ntJoin3 p "bin" "conda"
    let r1 := sub.runArgv (install_conda_wget p)
    let r2 := sub.runArgv ["wsl", "chmod", "+x", pathSh]
    let r3 := sub.runArgv ["wsl", "bash", pathSh, "-b", "-u", "-p", p]
    let r4 := sub.runArgv ["wsl", "rm", "-rf", pathSh]
    let r5 := sub.runArgv ["wsl", pathConda, "init", "bash"]
    ([Event.run (install_conda_wget p) r1,
      Event.run ["wsl", "chmod", "+x", pathSh] r2,
      Event.print Msg.installing,
      Event.run ["wsl", "bash", pathSh, "-b", "-u", "-p", p] r3,
      Event.run ["wsl", "rm", "-rf", pathSh] r4,
      Event.run ["wsl", pathConda, "init", "bash"] r5,
      Event.print Msg.installedOk],
     Except.ok true)
  else ([], Except.error PyError.notImplementedError)

/-- Argv of the environment listing probe of `checkEnvCondaWsl` (line 77). -/
def envListCmd : List String :=
  ["wsl", "--", "~/miniconda3/bin/python3", "~/miniconda3/bin/conda", "info", "--envs"]

/-- The listing lines examined by `checkEnvCondaWsl`:
`output.strip().split("\n")` (line 84). -/
def envLines (out : String) : List (List Char) := splitLines (stripChars out.data)

/-- `checkEnvCondaWsl` (lines 74-92): run the listing probe; when it exits 0,
return whether some listed line has `os.path.basename(line)` equal to the
requested name; on a non-zero exit fall through to `False`.  The function is
total: it interprets the exit code itself and never raises. -/
def checkEnvCondaWsl (sub : Subsystem) (name : String) : Bool :=
  let result := sub.runArgv envListCmd
  if result.exitCode = 0 then
    (envLines result.stdout).any (fun line => basenameL line == name.data)
  else false

/-- Argv of the base environment creation (line 101): pinned interpreter plus
`pip` and `numpy-base`. -/
def createEnvCmd (name : String) : List String :=
  ["wsl", "--", "~/miniconda3/bin/conda", "create", "-y", "-n", name,
   "python=3.9", "pip", "numpy-base"]

/-- Shell command of line 117. -/
def condaListPipCmd : String := "~/miniconda3/bin/conda list pip"

/-- One `pip install` shell command of the `install_commands` list
(lines 122-131): f-string with the activate source and the per-environment pip. -/
def pipInstallCmd (name pkgs : String) : String :=
  "wsl -- bash -c \"source ~/miniconda3/bin/activate " ++ name ++
    " && ~/miniconda3/envs/" ++ name ++ "/bin/pip install " ++ pkgs ++ "\""

/-- The eight `install_commands` of `createCondaEnv` (lines 122-131). -/
def installCommands (name : String) : List String :=
  [pipInstallCmd name
     "torch torchvision torchaudio --extra-index-url https://download.pytorch.org/whl/cu113",
   pipInstallCmd name "monai==0.7.0",
   pipInstallCmd name
     "--no-cache-dir torch==1.11.0+cu113 torchvision==0.12.0+cu113 torchaudio==0.11.0+cu113 --extra-index-url https://download.pytorch.org/whl/cu113",
   pipInstallCmd name "fvcore",
   pipInstallCmd name
     "--no-index --no-cache-dir pytorch3d -f https://dl.fbaipublicfiles.com/pytorch3d/packaging/wheels/py39_cu113_pyt1110/download.html",
   pipInstallCmd name "rpyc",
   pipInstallCmd name "vtk",
   pipInstallCmd name "scipy"]

/-- The last entry of `install_commands` (the `scipy` command), whose result
is the value of the `result` variable after the loop of `createCondaEnv`. -/
def lastInstallCmd (name : String) : String := pipInstallCmd name "scipy"

/-- The `for command in install_commands` loop (lines 135-143): every command
is run via `subprocess.run(..., shell=True)` and its outcome printed; a
non-zero exit never stops the loop.  `last` threads the Python variable
`result`, whose final value the code inspects after the loop. -/
def installLoop (sub : Subsystem) (last : CommandResult) :
    List String → List Event × CommandResult
  | [] => ([], last)
  | cmd :: rest =>
    let r := sub.runShell cmd
    let here := [Event.print (Msg.showCmd cmd), Event.runShell cmd r,
                 Event.print (if r.exitCode = 0 then Msg.installCmdOk cmd
                              else Msg.installCmdFailed cmd)]
    let next := installLoop sub r rest
    (here ++ next.1, next.2)

/-- `createCondaEnv` (lines 94-148): create the base environment (outcome
printed from its own exit code), run `conda list pip`, run the eight install
commands best-effort, then print the final success/failure report from the
exit code of the `result` variable — i.e. of the last install command.  The
function returns `None` in Python; its only outputs are these events. -/
def createCondaEnv (sub : Subsystem) (name : String) : List Event :=
  let r0 := sub.runArgv (createEnvCmd name)
  let es0 := [Event.print Msg.showCreateCmd, Event.run (createEnvCmd name) r0,
              Event.print (if r0.exitCode ≠ 0 then Msg.createErr else Msg.createOk)]
  let r1 := sub.runShell condaListPipCmd
  let es1 := [Event.runShell condaListPipCmd r1, Event.print (Msg.dump r1.stdout)]
  let loop := installLoop sub r1 (installCommands name)
  es0 ++ es1 ++ loop.1 ++
    [Event.print (if loop.2.exitCode = 0 then Msg.finalOk else Msg.finalErr)]

/-- The environment name hard-coded in `setup` (line 175). -/
def aliName : String := "aliIOSCondaCli"

/-- Host-side inputs of `setup`: the directory of the running script
(`os.path.dirname(os.path.abspath(__file__))`) and `sys.argv[3..8]`.
`default_install_path` is the first positional argument; `setup` overwrites
it with the value returned by `checkMinicondaWsl` before any use. -/
structure SetupInputs where
  default_install_path : String
  currentDirectory : String
  a3 : String
  a4 : String
  a5 : String
  a6 : String
  a7 : String
  a8 : String

/-- The shell command of line 187: the base interpreter runs `link.py`
(translated by `windows_to_linux_path`) with the six CLI arguments and the
environment name. -/
def linkCommand (inp : SetupInputs) : String :=
  let lien := windows_to_linux_path (ntJoin inp.currentDirectory "link.py")
  "wsl -- bash -c \"~/miniconda3/bin/python " ++ lien ++ " " ++ inp.a3 ++ " " ++
    inp.a4 ++ " " ++ inp.a5 ++ " " ++ inp.a6 ++ " " ++ inp.a7 ++ " " ++ inp.a8 ++
    " " ++ aliName ++ "\""

/-- `setup` (lines 168-201): probe for Miniconda and install it when absent,
probe for the `aliIOSCondaCli` environment and create it when the probe
returns `False`, then run the `link.py` dispatch command unconditionally and
print its outcome.  The commented-out `call(...)` of line 201 is not run. -/
def setup (sub : Subsystem) (inp : SetupInputs) : List Event :=
  let rM := sub.runArgv checkMinicondaCmd
  let instEvents := if rM.exitCode = 0 then [] else install_miniconda_on_wsl sub
  let rEnv := sub.runArgv envListCmd
  let probe := checkEnvCondaWsl sub aliName
  let envEvents := [Event.run envListCmd rEnv,
                    Event.print (if probe then Msg.envExists else Msg.envMissing)]
  let createEvents := if probe then [] else createCondaEnv sub aliName
  let cmd := linkCommand inp
  let rL := sub.runShell cmd
  [Event.run checkMinicondaCmd rM] ++ instEvents ++ envEvents ++ createEvents ++
    [Event.runShell cmd rL,
     Event.print (if rL.exitCode ≠ 0 then Msg.linkErr else Msg.linkOk)]

/-- Host-side inputs of `call`: the install prefix argument and the directory
of the running script. -/
structure CallInputs where
  default_install_path : String
  currentDirectory : String

/-- The fixed RPC port of line 228. -/
def rpcPort : Nat := 18817

/-- `call` (lines 204-238): run the activation shell command, launch the
worker (`server.py` under the environment interpreter) with `Popen`, wait two
seconds — and then stop at `rpyc.connect`: `rpyc` is never imported in
`Func_Miniconda.py`, so the name lookup on line 228 raises `NameError`, which
propagates (there is no `try` around it).  No connection is created, no
`conn.close()` runs, and the launched worker process is never terminated. -/
def call (sub : Subsystem) (inp : CallInputs) (name : String) :
    List Event × Option PyError :=
  let activate_env := ntJoin3 inp.default_install_path "bin" "activate"
  let python_executable := ntJoin (ntJoin3 inp.default_install_path "envs" name) "python"
  let path_activate := ntJoin3 inp.default_install_path "Scripts" "activate"
  let activate_command := "conda " ++ path_activate ++ " " ++ name
  let rA := sub.runShell activate_command
  let path_server := ntJoin inp.currentDirectory "server.py"
  let command := python_executable ++ " " ++ path_server
  let _ := activate_env
  ([Event.runShell activate_command rA, Event.popen command, Event.sleep 2],
   some (PyError.nameError "rpyc"))

section PathLemmas

theorem toNat_charOfNat {n : Nat} (h : n.isValidChar) : (Char.ofNat n).toNat = n := by
  rw [Char.ofNat, dif_pos h]
  rfl

theorem driveLetter_toNat {c : Char} (h : isDriveLetter c = true) :
    (65 ≤ c.toNat ∧ c.toNat ≤ 90) ∨ (97 ≤ c.toNat ∧ c.toNat ≤ 122) := by
  simpa [isDriveLetter] using h

theorem pyLower_bounds {c : Char} (h : isDriveLetter c = true) :
    97 ≤ (pyLower c).toNat ∧ (pyLower c).toNat ≤ 122 := by
  have hb := driveLetter_toNat h
  unfold pyLower
  by_cases hu : 65 ≤ c.toNat ∧ c.toNat ≤ 90
  · rw [if_pos hu, toNat_charOfNat (Or.inl (by omega))]
    omega
  · rw [if_neg hu]
    omega

theorem ne_of_toNat_ne {c d : Char} (h : c.toNat ≠ d.toNat) : c ≠ d :=
  fun he => h (he ▸ rfl)

theorem pyIsSpace_iff {c : Char} : pyIsSpace c = true ↔
    (c.toNat = 32 ∨ c.toNat = 9 ∨ c.toNat = 10 ∨ c.toNat = 13 ∨
      c.toNat = 11 ∨ c.toNat = 12) := by
  simp [pyIsSpace]
  tauto

theorem pyIsSpace_pyLower {c : Char} (h : isDriveLetter c = true) :
    pyIsSpace (pyLower c) = false := by
  have hb := pyLower_bounds h
  rw [Bool.eq_false_iff]
  intro hs
  have := pyIsSpace_iff.mp hs
  omega

theorem pyLower_ne_colon {c : Char} (h : isDriveLetter c = true) : pyLower c ≠ ':' := by
  have hb := pyLower_bounds h
  exact ne_of_toNat_ne (by intro he; rw [show (':').toNat = 58 from rfl] at he; omega)

theorem pyLower_ne_backslash {c : Char} (h : isDriveLetter c = true) :
    pyLower c ≠ '\\' := by
  have hb := pyLower_bounds h
  exact ne_of_toNat_ne (by intro he; rw [show ('\\').toNat = 92 from rfl] at he; omega)

theorem driveLetter_ne_colon {c : Char} (h : isDriveLetter c = true) : c ≠ ':' := by
  have hb := driveLetter_toNat h
  exact ne_of_toNat_ne (by intro he; rw [show (':').toNat = 58 from rfl] at he; omega)

theorem driveLetter_ne_backslash {c : Char} (h : isDriveLetter c = true) : c ≠ '\\' := by
  have hb := driveLetter_toNat h
  exact ne_of_toNat_ne (by intro he; rw [show ('\\').toNat = 92 from rfl] at he; omega)

theorem repl_eq_self {c : Char} (h : c ≠ '\\') : repl c = c := if_neg h

theorem repl_repl (c : Char) : repl (repl c) = repl c := by
  by_cases h : c = '\\'
  · subst h; rfl
  · rw [repl_eq_self h, repl_eq_self h]

theorem repl_eq_colon_iff {c : Char} : repl c = ':' ↔ c = ':' := by
  unfold repl
  by_cases h : c = '\\'
  · subst h; simp
  · rw [if_neg h]

theorem pyIsSpace_repl (c : Char) : pyIsSpace (repl c) = pyIsSpace c := by
  by_cases h : c = '\\'
  · subst h; rfl
  · rw [repl_eq_self h]

theorem splitOnceColon_append (pre suf : List Char) (h : ':' ∉ pre) :
    splitOnceColon (pre ++ ':' :: suf) = some (pre, suf) := by
  induction pre with
  | nil => simp [splitOnceColon]
  | cons c pre ih =>
    have hc : ¬ c = ':' := by
      intro he
      exact h (he ▸ List.mem_cons_self _ _)
    have hpre : ':' ∉ pre := fun hm => h (List.mem_cons_of_mem _ hm)
    simp only [List.cons_append, splitOnceColon, if_neg hc, List.append_eq, ih hpre,
      Option.map_some']

theorem splitOnceColon_eq_none (l : List Char) (h : ':' ∉ l) :
    splitOnceColon l = none := by
  induction l with
  | nil => rfl
  | cons c rest ih =>
    have hc : ¬ c = ':' := by
      intro he
      exact h (he ▸ List.mem_cons_self _ _)
    have hrest : ':' ∉ rest := fun hm => h (List.mem_cons_of_mem _ hm)
    simp only [splitOnceColon, if_neg hc, ih hrest, Option.map_none']

theorem w2l_eq_norm {s : String} (h : ':' ∉ normChars s.data) :
    windows_to_linux_path s = String.mk (normChars s.data) := by
  unfold windows_to_linux_path w2lCore
  rw [splitOnceColon_eq_none _ h]

theorem w2l_eq_mnt {s : String} {pre suf : List Char} (h1 : ':' ∉ pre)
    (h2 : normChars s.data = pre ++ ':' :: suf) :
    windows_to_linux_path s = String.mk (mntChars ++ pre.map pyLower ++ suf) := by
  unfold windows_to_linux_path w2lCore
  rw [h2, splitOnceColon_append _ _ h1]

theorem dropWhile_head?_false {p : Char → Bool} {l : List Char} {x : Char}
    (h : (l.dropWhile p).head? = some x) : p x = false := by
  induction l with
  | nil => simp [List.dropWhile] at h
  | cons a t ih =>
    rw [List.dropWhile_cons] at h
    by_cases hpa : p a
    · rw [if_pos hpa] at h
      exact ih h
    · rw [if_neg hpa] at h
      simp only [List.head?, Option.some.injEq] at h
      subst h
      exact Bool.eq_false_iff.mpr hpa

theorem stripChars_getLast?_false {l : List Char} {x : Char}
    (h : (stripChars l).getLast? = some x) : pyIsSpace x = false := by
  unfold stripChars at h
  rw [List.getLast?_reverse] at h
  exact dropWhile_head?_false h

theorem dropWhile_eq_self_of_head? {p : Char → Bool} {l : List Char} {x : Char}
    (h : l.head? = some x) (hx : p x = false) : l.dropWhile p = l := by
  cases l with
  | nil => simp at h
  | cons a t =>
    simp only [List.head?, Option.some.injEq] at h
    subst h
    rw [List.dropWhile_cons, if_neg (by simp [hx])]

end PathLemmas

/-- C7: the claim says a string without a drive marker is returned with
separators normalized only.  Counterexample: `":x"` contains no drive marker
(no ASCII letter immediately followed by a colon, neither before nor after
normalisation), yet `windows_to_linux_path` rewrites it at its first colon to
`"/mnt/x"` instead of returning the normalised string `":x"` unchanged. -/
theorem C7_counterexample :
    containsDriveMarker ":x".data = false ∧
    containsDriveMarker (normChars ":x".data) = false ∧
    windows_to_linux_path ":x" = "/mnt/x" ∧
    windows_to_linux_path ":x" ≠ String.mk (normChars ":x".data) :=
  ⟨by decide, by decide, by decide, by decide⟩

/-- C7 (amended): `windows_to_linux_path` strips surrounding whitespace and
replaces every backslash by a slash (`normChars`); a string whose normalised
form contains no colon at all is returned normalised only, and a string whose
normalised form starts with a drive marker `X:` is rewritten to `/mnt/` with
the drive letter lower-cased, followed by the remainder of the path.  The
function is total (defined on every string). -/
theorem C7_normalise_and_mount (s : String) :
    (':' ∉ normChars s.data → windows_to_linux_path s = String.mk (normChars s.data)) ∧
    (∀ (c : Char) (rest : List Char), isDriveLetter c = true →
      normChars s.data = c :: ':' :: rest →
      windows_to_linux_path s = String.mk (mntChars ++ pyLower c :: rest)) := by
  constructor
  · exact w2l_eq_norm
  · intro c rest hc h2
    have h1 : ':' ∉ [c] := by
      intro hm
      exact driveLetter_ne_colon hc (List.mem_singleton.mp hm).symm
    have h := w2l_eq_mnt h1 (by simpa using h2)
    simpa using h

/-- Witness for C7 (amended), at a concrete drive-marker path and a concrete
colon-free path. -/
theorem C7_witness :
    windows_to_linux_path "C:\\Users\\t.txt" = "/mnt/c/Users/t.txt" ∧
    windows_to_linux_path "a\\b" = "a/b" := by
  constructor
  · have h := (C7_normalise_and_mount "C:\\Users\\t.txt").2 'C' "/Users/t.txt".data
      (by decide) (by decide)
    rw [h]; decide
  · have h := (C7_normalise_and_mount "a\\b").1 (by decide)
    rw [h]; decide

/-- C9: the mount rewrite triggers on any colon anywhere in the (normalised)
input, not only on a single-letter drive marker: the string is split at its
first colon and the whole prefix before that colon is lower-cased and placed
after `/mnt/`. -/
theorem C9_any_colon_splits (s : String) (pre suf : List Char)
    (h1 : ':' ∉ pre) (h2 : normChars s.data = pre ++ ':' :: suf) :
    windows_to_linux_path s = String.mk (mntChars ++ pre.map pyLower ++ suf) :=
  w2l_eq_mnt h1 h2

/-- Witness for C9: `"AB:cd"`, whose first colon is not preceded by a single
drive letter but by the two-letter prefix `AB`, is still rewritten, with the
entire prefix lower-cased. -/
theorem C9_witness : windows_to_linux_path "AB:cd" = "/mnt/abcd" := by
  have h := C9_any_colon_splits "AB:cd" "AB".data "cd".data (by decide) (by decide)
  rw [h]; decide

/-- A valid host path containing a drive marker: after stripping whitespace it
is a drive letter, a colon, and a remainder containing no further colon
(Windows paths cannot contain a colon outside the drive marker). -/
def ValidDrivePath (s : String) : Prop :=
  ∃ (c : Char) (rest : List Char), isDriveLetter c = true ∧
    stripChars s.data = c :: ':' :: rest ∧ ':' ∉ rest

/-- C8: for valid host paths containing a drive marker,
`windows_to_linux_path` is idempotent on its own output: the first output has
no whitespace to strip, no backslash to replace and no colon to split at, so a
second application returns it unchanged. -/
theorem C8_idempotent (s : String) (h : ValidDrivePath s) :
    windows_to_linux_path (windows_to_linux_path s) = windows_to_linux_path s := by
  obtain ⟨c, rest, hc, hstrip, hrest⟩ := h
  have hnorm : normChars s.data = c :: ':' :: rest.map repl := by
    unfold normChars
    rw [hstrip, List.map_cons, List.map_cons, repl_eq_self (driveLetter_ne_backslash hc),
      show repl ':' = ':' from rfl]
  have h1 : ':' ∉ [c] := by
    intro hm
    exact driveLetter_ne_colon hc (List.mem_singleton.mp hm).symm
  have hfirst : windows_to_linux_path s = String.mk (mntChars ++ pyLower c :: rest.map repl) := by
    have h := w2l_eq_mnt h1 (by simpa using hnorm)
    simpa using h
  rw [hfirst]
  set o : List Char := mntChars ++ pyLower c :: rest.map repl with ho
  have hlast : ∃ z, o.getLast? = some z ∧ pyIsSpace z = false := by
    cases rest with
    | nil =>
      refine ⟨pyLower c, ?_, pyIsSpace_pyLower hc⟩
      simp [ho]
    | cons r rs =>
      have hne : (r :: rs : List Char) ≠ [] := by simp
      have hy : (r :: rs).getLast? = some ((r :: rs).getLast hne) :=
        List.getLast?_eq_getLast _ hne
      have hys : pyIsSpace ((r :: rs).getLast hne) = false := by
        apply stripChars_getLast?_false (l := s.data)
        rw [hstrip, List.getLast?_cons_cons, List.getLast?_cons_cons, hy]
      refine ⟨repl ((r :: rs).getLast hne), ?_, by rw [pyIsSpace_repl]; exact hys⟩
      rw [ho]
      rw [List.getLast?_append, List.map_cons, List.getLast?_cons_cons,
        ← List.map_cons, List.getLast?_map, hy]
      rfl
  obtain ⟨z, hz, hzs⟩ := hlast
  have hrevhead : o.reverse.head? = some z := by rw [List.head?_reverse]; exact hz
  have hback : o.reverse.dropWhile pyIsSpace = o.reverse :=
    dropWhile_eq_self_of_head? hrevhead hzs
  have hfront : o.dropWhile pyIsSpace = o :=
    dropWhile_eq_self_of_head? (x := '/') rfl (by decide)
  have hstr : stripChars o = o := by
    unfold stripChars
    rw [hfront, hback, List.reverse_reverse]
  have hmnt1 : mntChars.map repl = mntChars := by decide
  have hmnt2 : (rest.map repl).map repl = rest.map repl := by
    rw [List.map_map]
    exact List.map_congr_left (fun x _ => repl_repl x)
  have hmapo : o.map repl = o := by
    rw [ho, List.map_append, List.map_cons, repl_eq_self (pyLower_ne_backslash hc),
      hmnt1, hmnt2]
  have hnormo : normChars o = o := by
    unfold normChars
    rw [hstr, hmapo]
  have hnocolon : ':' ∉ o := by
    intro hm
    rw [ho] at hm
    rcases List.mem_append.mp hm with hmnt | hco
    · exact absurd hmnt (by decide)
    · rcases List.mem_cons.mp hco with he | hmm
      · exact pyLower_ne_colon hc he.symm
      · obtain ⟨y, hy, hye⟩ := List.mem_map.mp hmm
        rw [repl_eq_colon_iff.mp hye] at hy
        exact hrest hy
  calc windows_to_linux_path (String.mk o)
      = String.mk (normChars (String.mk o).data) := by
        apply w2l_eq_norm
        show ':' ∉ normChars o
        rw [hnormo]
        exact hnocolon
    _ = String.mk o := by
        show String.mk (normChars o) = _
        rw [hnormo]

/-- Witness for C8 at a concrete drive path. -/
theorem C8_witness :
    windows_to_linux_path (windows_to_linux_path " E:\\data\\scan.nii ") =
      windows_to_linux_path " E:\\data\\scan.nii " :=
  C8_idempotent _ ⟨'E', "\\data\\scan.nii".data, by decide, by decide, by decide⟩

theorem runCheckSeq_events (sub : Subsystem) :
    ∀ (cmds : List (List String)) (e : Event), e ∈ (runCheckSeq sub cmds).1 →
      ∃ argv r, e = Event.checkCall argv r := by
  intro cmds
  induction cmds with
  | nil => intro e he; simp [runCheckSeq] at he
  | cons argv rest ih =>
    intro e he
    simp only [runCheckSeq] at he
    by_cases h0 : (sub.runArgv argv).exitCode = 0
    · rw [if_pos h0] at he
      rcases List.mem_cons.mp he with he | he
      · exact ⟨argv, sub.runArgv argv, he⟩
      · exact ih e he
    · rw [if_neg h0] at he
      rcases List.mem_cons.mp he with he | he
      · exact ⟨argv, sub.runArgv argv, he⟩
      · simp at he

theorem install_miniconda_no_run (sub : Subsystem) :
    ∀ e ∈ install_miniconda_on_wsl sub, ∀ argv r, e ≠ Event.run argv r := by
  intro e he argv r
  cases h2 : (runCheckSeq sub minicondaInstallCmds).2 with
  | some err =>
    simp only [install_miniconda_on_wsl, h2] at he
    rcases List.mem_append.mp he with he | he
    · obtain ⟨a, cr, hcc⟩ := runCheckSeq_events sub _ e he
      subst hcc
      simp
    · simp at he
      subst he
      simp
  | none =>
    simp only [install_miniconda_on_wsl, h2] at he
    rcases List.mem_append.mp he with he | he
    · obtain ⟨a, cr, hcc⟩ := runCheckSeq_events sub _ e he
      subst hcc
      simp
    · rcases List.mem_cons.mp he with he | he
      · subst he; simp
      · simp at he; subst he; simp

/-- C10: `checkEnvCondaWsl` returns `False` both when the listing command
itself exits non-zero and when the requested name matches the basename of no
listed line; the two causes are indistinguishable in the boolean result.  The
function is total — the exit code is interpreted, never re-raised. -/
theorem C10_false_on_error_or_absence (sub : Subsystem) (name : String)
    (h : (sub.runArgv envListCmd).exitCode ≠ 0 ∨
      ∀ line ∈ envLines (sub.runArgv envListCmd).stdout, basenameL line ≠ name.data) :
    checkEnvCondaWsl sub name = false := by
  simp only [checkEnvCondaWsl]
  rcases h with h | h
  · rw [if_neg h]
  · by_cases he : (sub.runArgv envListCmd).exitCode = 0
    · rw [if_pos he, List.any_eq_false]
      intro line hl
      simpa using h line hl
    · rw [if_neg he]

/-- A subsystem whose environment-listing probe fails at the transport level. -/
def subListFail : Subsystem :=
  ⟨fun _ => ⟨1, "", "listing failed"⟩, fun _ => ⟨1, "", ""⟩⟩

/-- A subsystem whose listing succeeds but contains no `aliIOSCondaCli`. -/
def subNoEnv : Subsystem :=
  ⟨fun _ => ⟨0, "# conda environments:\nbase  /home/u/miniconda3", ""⟩,
   fun _ => ⟨0, "", ""⟩⟩

/-- Witness for C10: a failing listing and an absent environment both yield
`false`. -/
theorem C10_witness :
    checkEnvCondaWsl subListFail aliName = false ∧
    checkEnvCondaWsl subNoEnv aliName = false :=
  ⟨C10_false_on_error_or_absence subListFail aliName (Or.inl (by decide)),
   C10_false_on_error_or_absence subNoEnv aliName (Or.inr (by decide))⟩

/-- C6: the existence probe is decided by listing the environments and testing
exact equality between the requested name and `os.path.basename` of each
listed line; and when the probe returns `true` (as it does on a second
`setup` run after the environment appeared, with no external state change),
`setup` issues no environment-creation command at all. -/
theorem C6_probe_and_skip (sub : Subsystem) (inp : SetupInputs) (name : String) :
    (checkEnvCondaWsl sub name = true ↔
      ((sub.runArgv envListCmd).exitCode = 0 ∧
        ∃ line ∈ envLines (sub.runArgv envListCmd).stdout, basenameL line = name.data)) ∧
    (checkEnvCondaWsl sub aliName = true →
      ∀ r, Event.run (createEnvCmd aliName) r ∉ setup sub inp) := by
  constructor
  · simp only [checkEnvCondaWsl]
    by_cases he : (sub.runArgv envListCmd).exitCode = 0
    · rw [if_pos he]
      simp [he, List.any_eq_true, beq_iff_eq]
    · rw [if_neg he]
      simp [he]
  · intro hp r hmem
    simp only [setup, hp, if_true] at hmem
    by_cases hM : (sub.runArgv checkMinicondaCmd).exitCode = 0
    · simp only [hM, if_true] at hmem
      simp only [List.append_assoc, List.nil_append, List.mem_append, List.mem_cons,
        List.mem_singleton, List.not_mem_nil, or_false, false_or] at hmem
      rcases hmem with hmem | hmem | hmem | hmem | hmem <;> simp at hmem
      · exact absurd hmem.1 (by decide)
      · exact absurd hmem.1 (by decide)
    · simp only [hM, if_false] at hmem
      simp only [List.append_assoc, List.nil_append, List.mem_append, List.mem_cons,
        List.mem_singleton, List.not_mem_nil, or_false, false_or] at hmem
      rcases hmem with hmem | hmem | (hmem | hmem) | hmem | hmem
      · simp at hmem
        exact absurd hmem.1 (by decide)
      · exact install_miniconda_no_run sub _ hmem _ _ rfl
      · simp at hmem
        exact absurd hmem.1 (by decide)
      · simp at hmem
      · simp at hmem
      · simp at hmem

/-- A subsystem on which everything succeeds and the listing already shows
`aliIOSCondaCli`. -/
def subEnvPresent : Subsystem :=
  ⟨fun _ =>
    ⟨0, "# conda environments:\nbase  /home/u/miniconda3\naliIOSCondaCli   /home/u/miniconda3/envs/aliIOSCondaCli", ""⟩,
   fun _ => ⟨0, "", ""⟩⟩

/-- Concrete `setup` inputs used by witnesses. -/
def inpW : SetupInputs :=
  ⟨"C:\\mc", "C:\\ALI", "scan.nii", "models", "lm", "teeth", "true", "out"⟩

/-- Witness for C6: with the environment already listed, the probe is `true`
and `setup` issues no creation command. -/
theorem C6_witness :
    checkEnvCondaWsl subEnvPresent aliName = true ∧
    Event.run (createEnvCmd aliName) (CommandResult.mk 0 "" "") ∉ setup subEnvPresent inpW :=
  ⟨by decide,
   (C6_probe_and_skip subEnvPresent inpW aliName).2 (by decide) (CommandResult.mk 0 "" "")⟩

theorem installLoop_events (sub : Subsystem) :
    ∀ (cmds : List String) (last : CommandResult) (cmd : String), cmd ∈ cmds →
      Event.runShell cmd (sub.runShell cmd) ∈ (installLoop sub last cmds).1 := by
  intro cmds
  induction cmds with
  | nil => intro last cmd h; simp at h
  | cons c rest ih =>
    intro last cmd h
    simp only [installLoop]
    rcases List.mem_cons.mp h with h | h
    · subst h
      exact List.mem_append.mpr (Or.inl (by simp))
    · exact List.mem_append.mpr (Or.inr (ih _ cmd h))

theorem installLoop_prints (sub : Subsystem) :
    ∀ (cmds : List String) (last : CommandResult) (cmd : String), cmd ∈ cmds →
      Event.print (if (sub.runShell cmd).exitCode = 0 then Msg.installCmdOk cmd
        else Msg.installCmdFailed cmd) ∈ (installLoop sub last cmds).1 := by
  intro cmds
  induction cmds with
  | nil => intro last cmd h; simp at h
  | cons c rest ih =>
    intro last cmd h
    simp only [installLoop]
    rcases List.mem_cons.mp h with h | h
    · subst h
      exact List.mem_append.mpr (Or.inl (by simp))
    · exact List.mem_append.mpr (Or.inr (ih _ cmd h))

theorem installLoop_last (sub : Subsystem) :
    ∀ (cmds : List String) (last : CommandResult) (c : String), cmds.getLast? = some c →
      (installLoop sub last cmds).2 = sub.runShell c := by
  intro cmds
  induction cmds with
  | nil => intro last c h; simp at h
  | cons a rest ih =>
    intro last c h
    cases rest with
    | nil =>
      simp at h
      subst h
      simp [installLoop]
    | cons b bs =>
      rw [List.getLast?_cons_cons] at h
      simp only [installLoop]
      exact ih (sub.runShell a) c h

/-- The subsystem used for the C2 counterexample: every argv command (in
particular the base environment creation) exits 0; every shell command exits
0 except the last manifest entry (the `scipy` install), which exits 1. -/
def subC2 : Subsystem :=
  ⟨fun _ => ⟨0, "", ""⟩,
   fun cmd => if cmd == lastInstallCmd aliName then ⟨1, "", "pip failed"⟩ else ⟨0, "", ""⟩⟩

/-- C2 fails as stated: on `subC2` the base environment creation exits 0 and
is reported successful, yet the final report of `createCondaEnv` is the
failure message, because the final `result` inspected after the loop is that
of the last install command, not of the base creation. -/
theorem C2_counterexample :
    (subC2.runArgv (createEnvCmd aliName)).exitCode = 0 ∧
    Event.print Msg.createOk ∈ createCondaEnv subC2 aliName ∧
    (createCondaEnv subC2 aliName).getLast? = some (Event.print Msg.finalErr) :=
  ⟨by decide, by decide, by decide⟩

/-- C2 (amended): `createCondaEnv` installs each manifest entry as its own
shell command; a non-zero exit of one entry is logged and the loop continues
through every remaining entry; but the overall final report is gated by the
exit code of the last manifest entry (the `scipy` command), not by the base
environment creation (whose outcome is only reported separately, right after
the create command). -/
theorem C2_best_effort_last_gated (sub : Subsystem) (name : String) :
    (∀ cmd ∈ installCommands name,
      Event.runShell cmd (sub.runShell cmd) ∈ createCondaEnv sub name) ∧
    (∀ cmd ∈ installCommands name,
      Event.print (if (sub.runShell cmd).exitCode = 0 then Msg.installCmdOk cmd
        else Msg.installCmdFailed cmd) ∈ createCondaEnv sub name) ∧
    Event.print (if (sub.runArgv (createEnvCmd name)).exitCode ≠ 0 then Msg.createErr
      else Msg.createOk) ∈ createCondaEnv sub name ∧
    (createCondaEnv sub name).getLast? =
      some (Event.print (if (sub.runShell (lastInstallCmd name)).exitCode = 0
        then Msg.finalOk else Msg.finalErr)) := by
  refine ⟨?_, ?_, ?_, ?_⟩
  · intro cmd hc
    simp only [createCondaEnv]
    exact List.mem_append.mpr (Or.inl (List.mem_append.mpr
      (Or.inr (installLoop_events sub _ _ cmd hc))))
  · intro cmd hc
    simp only [createCondaEnv]
    exact List.mem_append.mpr (Or.inl (List.mem_append.mpr
      (Or.inr (installLoop_prints sub _ _ cmd hc))))
  · simp only [createCondaEnv]
    exact List.mem_append.mpr (Or.inl (List.mem_append.mpr (Or.inl
      (List.mem_append.mpr (Or.inl (by simp))))))
  · have hl : (installLoop sub (sub.runShell condaListPipCmd) (installCommands name)).2
        = sub.runShell (lastInstallCmd name) :=
      installLoop_last sub _ _ _ (by simp [installCommands, lastInstallCmd])
    simp only [createCondaEnv]
    rw [List.getLast?_concat, hl]

/-- Witness for C2 (amended): on `subC2` the failing last entry is still
executed as its own command, and every other entry runs too. -/
theorem C2_witness :
    Event.runShell (lastInstallCmd aliName) (subC2.runShell (lastInstallCmd aliName))
      ∈ createCondaEnv subC2 aliName ∧
    Event.runShell (pipInstallCmd aliName "fvcore") (subC2.runShell (pipInstallCmd aliName "fvcore"))
      ∈ createCondaEnv subC2 aliName :=
  ⟨(C2_best_effort_last_gated subC2 aliName).1 _ (by decide),
   (C2_best_effort_last_gated subC2 aliName).1 _ (by decide)⟩

/-- A subsystem on which the Miniconda probe and both download commands (the
plain wget of `install_miniconda_on_wsl` and the flagged wget of
`install_conda`) exit non-zero; everything else succeeds. -/
def subDl : Subsystem :=
  ⟨fun argv =>
    if argv == checkMinicondaCmd || argv == wslWget
        || argv == install_conda_wget "~/miniconda3" then
      ⟨1, "", "download failed"⟩
    else ⟨0, "", ""⟩,
   fun _ => ⟨0, "", ""⟩⟩

/-- C4 fails as stated: the download command actually used by `setup`
(`install_miniconda_on_wsl`, line 48) carries neither `--tries=3` nor
`--continue`; and an exhausted download does not fail the whole operation —
`install_conda` (the only place with the retry flags) still returns success
when its wget exits non-zero, and `setup` proceeds to the environment listing
after a failed download. -/
theorem C4_counterexample :
    "--tries=3" ∉ wslWget ∧ "--continue" ∉ wslWget ∧
    (subDl.runArgv (install_conda_wget "~/miniconda3")).exitCode ≠ 0 ∧
    (install_conda subDl "Windows" "~/miniconda3").2 = Except.ok true ∧
    (subDl.runArgv wslWget).exitCode ≠ 0 ∧
    Event.run envListCmd (subDl.runArgv envListCmd) ∈ setup subDl inpW :=
  ⟨by decide, by decide, by decide, by rfl, by decide, by decide⟩

/-- C4 (amended): when the runtime is missing, `setup` installs it via
`install_miniconda_on_wsl`, whose single download command has no retry or
continue flags; a failing download raises `CalledProcessError`, which skips
the remaining installation steps and is caught and logged inside the
function, after which `setup` continues with the environment listing instead
of failing the whole operation.  The `--continue --tries=3` flags appear only
in the never-called `install_conda`. -/
theorem C4_download_no_retry_no_abort (sub : Subsystem) (inp : SetupInputs)
    (hM : (sub.runArgv checkMinicondaCmd).exitCode ≠ 0)
    (hW : (sub.runArgv wslWget).exitCode ≠ 0) :
    install_miniconda_on_wsl sub =
      [Event.checkCall wslWget (sub.runArgv wslWget), Event.print Msg.minicondaErr] ∧
    Event.checkCall wslChmod (sub.runArgv wslChmod) ∉ install_miniconda_on_wsl sub ∧
    Event.run envListCmd (sub.runArgv envListCmd) ∈ setup sub inp ∧
    "--tries=3" ∉ wslWget ∧ "--continue" ∉ wslWget ∧
    "--tries=3" ∈ install_conda_wget "~/miniconda3" ∧
    "--continue" ∈ install_conda_wget "~/miniconda3" := by
  have hseq : runCheckSeq sub minicondaInstallCmds =
      ([Event.checkCall wslWget (sub.runArgv wslWget)], some PyError.calledProcessError) := by
    simp only [minicondaInstallCmds, runCheckSeq, if_neg hW]
  have htrace : install_miniconda_on_wsl sub =
      [Event.checkCall wslWget (sub.runArgv wslWget), Event.print Msg.minicondaErr] := by
    simp only [install_miniconda_on_wsl, hseq]
    rfl
  refine ⟨htrace, ?_, ?_, by decide, by decide, by decide, by decide⟩
  · rw [htrace]
    intro hm
    rcases List.mem_cons.mp hm with hm | hm
    · simp only [Event.checkCall.injEq] at hm
      exact absurd hm.1 (by decide)
    · simp at hm
  · simp only [setup, List.mem_append, List.mem_cons]
    tauto

/-- Witness for C4 (amended) on the concrete failing subsystem. -/
theorem C4_witness :
    install_miniconda_on_wsl subDl =
      [Event.checkCall wslWget (subDl.runArgv wslWget), Event.print Msg.minicondaErr] :=
  (C4_download_no_retry_no_abort subDl inpW (by decide) (by decide)).1

/-- C5 fails as stated: on `subDl` the wget invocation of
`install_miniconda_on_wsl` exits non-zero and — being a
`subprocess.check_call` — raises `CalledProcessError` (subsequently caught at
the function boundary), contradicting "never causes an exception to be
raised". -/
theorem C5_counterexample :
    (subDl.runArgv wslWget).exitCode ≠ 0 ∧
    (runCheckSeq subDl minicondaInstallCmds).2 = some PyError.calledProcessError ∧
    (install_miniconda_on_wsl subDl).getLast? = some (Event.print Msg.minicondaErr) :=
  ⟨by decide, by decide, by decide⟩

/-- C5 (amended): the `subprocess.run`-based invocations never raise on a
non-zero exit — `createCondaEnv` always runs to its final report whatever the
exit codes, and `checkEnvCondaWsl` just returns a boolean — but the six
installer steps of `install_miniconda_on_wsl` use `subprocess.check_call`,
which raises `CalledProcessError` exactly when some step (cut off at the
first failure) exits non-zero; that exception is caught at the function
boundary, so the function still ends with a diagnostic print. -/
theorem C5_run_never_raises_checkcall_does (sub : Subsystem) (name : String) :
    ((runCheckSeq sub minicondaInstallCmds).2 = none ↔
      ∀ argv ∈ minicondaInstallCmds, (sub.runArgv argv).exitCode = 0) ∧
    (∃ m, (createCondaEnv sub name).getLast? = some (Event.print m)) ∧
    (∃ m, (install_miniconda_on_wsl sub).getLast? = some (Event.print m)) := by
  refine ⟨?_, ?_, ?_⟩
  · have hgen : ∀ cmds : List (List String), ((runCheckSeq sub cmds).2 = none ↔
        ∀ argv ∈ cmds, (sub.runArgv argv).exitCode = 0) := by
      intro cmds
      induction cmds with
      | nil => simp [runCheckSeq]
      | cons a rest ih =>
        simp only [runCheckSeq]
        by_cases h0 : (sub.runArgv a).exitCode = 0
        · rw [if_pos h0]
          simp [h0, ih]
        · rw [if_neg h0]
          simp [h0]
    exact hgen minicondaInstallCmds
  · refine ⟨(if (installLoop sub (sub.runShell condaListPipCmd)
        (installCommands name)).2.exitCode = 0 then Msg.finalOk else Msg.finalErr), ?_⟩
    simp only [createCondaEnv]
    rw [List.getLast?_concat]
  · cases h2 : (runCheckSeq sub minicondaInstallCmds).2 with
    | some err =>
      refine ⟨Msg.minicondaErr, ?_⟩
      simp only [install_miniconda_on_wsl, h2]
      rw [List.getLast?_concat]
    | none =>
      refine ⟨Msg.minicondaOk, ?_⟩
      simp only [install_miniconda_on_wsl, h2]
      have : (runCheckSeq sub minicondaInstallCmds).1 ++
          [Event.runShell pipRpycCmd (sub.runShell pipRpycCmd), Event.print Msg.minicondaOk] =
          ((runCheckSeq sub minicondaInstallCmds).1 ++
            [Event.runShell pipRpycCmd (sub.runShell pipRpycCmd)]) ++
            [Event.print Msg.minicondaOk] := by
        simp
      rw [this, List.getLast?_concat]

/-- Witness for C5 (amended): on the failing subsystem the check-call
sequence did raise (its outcome is not `none`). -/
theorem C5_witness : (runCheckSeq subDl minicondaInstallCmds).2 ≠ none := by
  intro hn
  have h := (C5_run_never_raises_checkcall_does subDl aliName).1.mp hn wslWget (by decide)
  exact absurd h (by decide)

/-- Whether a trace contains a worker-process launch (`subprocess.Popen`). -/
def hasPopen (es : List Event) : Bool :=
  es.any (fun e => match e with | Event.popen _ => true | _ => false)

/-- A subsystem on which every command succeeds — in particular one on which
no `ensureEnvironment` (`checkEnvCondaWsl`/`createCondaEnv`) has ever been
issued: the oracle stands for arbitrary, also unprovisioned, states. -/
def subIdle : Subsystem := ⟨fun _ => ⟨0, "", ""⟩, fun _ => ⟨0, "", ""⟩⟩

/-- Concrete `call` inputs used by witnesses and counterexamples. -/
def cInpW : CallInputs := ⟨"C:\\mc", "C:\\ALI"⟩

/-- C1 fails as stated: `call` on a subsystem with no prior provisioning does
not fail with a ConfigurationError before launching the worker — its trace
contains the worker launch, contains no ConfigurationError, and the failure
it does end in is a `NameError` (`rpyc` unimported), raised only after the
launch. -/
theorem C1_counterexample :
    hasPopen (call subIdle cInpW aliName).1 = true ∧
    Event.configurationError ∉ (call subIdle cInpW aliName).1 ∧
    (call subIdle cInpW aliName).2 ≠ some PyError.configurationError ∧
    (call subIdle cInpW aliName).2 = some (PyError.nameError "rpyc") :=
  ⟨by decide, by decide, by decide, by decide⟩

/-- C1 (amended): `call` performs no provisioning precondition check at all:
for every subsystem state (provisioned or not) and all inputs it runs the
activation command and launches the worker process, and it never raises a
ConfigurationError; the call then fails with `NameError` (the `rpyc` client
module is never imported), after the worker has been launched. -/
theorem C1_no_precondition_check (sub : Subsystem) (inp : CallInputs) (name : String) :
    hasPopen (call sub inp name).1 = true ∧
    Event.configurationError ∉ (call sub inp name).1 ∧
    (call sub inp name).2 = some (PyError.nameError "rpyc") := by
  refine ⟨?_, ?_, rfl⟩
  · simp [call, hasPopen]
  · simp [call]

/-- Witness for C1 (amended), on the never-provisioned subsystem. -/
theorem C1_witness : hasPopen (call subIdle cInpW aliName).1 = true :=
  (C1_no_precondition_check subIdle cInpW aliName).1

/-- C3 fails as stated: when `call` cannot reach the worker it does not raise
ConnectionError (it fails with `NameError` before any connect attempt, since
`rpyc` is unimported), and it never terminates the worker process it
launched; no close of a client connection happens either (none was created).  -/
theorem C3_counterexample :
    (call subIdle cInpW aliName).2 ≠ some PyError.connectionError ∧
    Event.terminate ∉ (call subIdle cInpW aliName).1 ∧
    Event.closeConn ∉ (call subIdle cInpW aliName).1 ∧
    hasPopen (call subIdle cInpW aliName).1 = true :=
  ⟨by decide, by decide, by decide, by decide⟩

/-- C3 (amended): on every execution, `call` fails at the connect step with an
uncaught `NameError` (the `rpyc` import is missing) after launching the
worker; it performs no connect, never terminates the launched worker process,
and creates (hence closes) no client connection — so the failure leaves the
worker process dangling, not a client connection. -/
theorem C3_connect_failure_no_cleanup (sub : Subsystem) (inp : CallInputs) (name : String) :
    (call sub inp name).2 = some (PyError.nameError "rpyc") ∧
    Event.terminate ∉ (call sub inp name).1 ∧
    Event.closeConn ∉ (call sub inp name).1 ∧
    (∀ (h : String) (p : Nat), Event.connect h p ∉ (call sub inp name).1) ∧
    hasPopen (call sub inp name).1 = true := by
  refine ⟨rfl, ?_, ?_, ?_, ?_⟩ <;> simp [call, hasPopen]

/-- Witness for C3 (amended): no terminate event on the concrete inputs. -/
theorem C3_witness : Event.terminate ∉ (call subIdle cInpW aliName).1 :=
  (C3_connect_failure_no_cleanup subIdle cInpW aliName).2.1

end FuncMiniconda
